import Mathlib

/-!
Verification of the blood-donation inventory platform ("BloodBridge").

The definitions below are a shallow embedding of the repository's data model
(the Prisma migration in the repo, tables users / blood_banks / blood_inventory /
blood_requests / donations) and of its operations:

* `getBloodAvailability`, `createBloodRequest`, `scheduleDonation`,
  `completeDonation`, `findEligibleDonors`, `approveBloodRequest`
  (docs/api-examples.ts);
* `createBloodRequestWithInventoryUpdate` (the Prisma `$transaction` demo script);
* the `PUT` and `DELETE` handlers of /api/blood-requests/[id].

Timestamps are integers in milliseconds (JavaScript `Date.getTime()`); record
ids are naturals standing for the opaque UUID strings.  Fresh ids generated by
the database (`uuid()`) are passed in as explicit parameters.  The donation
`quantity` column is `DOUBLE PRECISION DEFAULT 1.0` in the schema; every value
the repository ever stores in it is a whole number of units, so it is embedded
as an integer (no statement below depends on float rounding).
-/

namespace BloodLink

/-- BloodGroup enum of the Prisma schema. -/
inductive BloodGroup where
  | A_POSITIVE | A_NEGATIVE | B_POSITIVE | B_NEGATIVE
  | AB_POSITIVE | AB_NEGATIVE | O_POSITIVE | O_NEGATIVE
deriving DecidableEq, Repr

/-- UserRole enum of the Prisma schema. -/
inductive UserRole where
  | DONOR | HOSPITAL | BLOOD_BANK | NGO | ADMIN
deriving DecidableEq, Repr

/-- RequestStatus enum of the Prisma schema. -/
inductive RequestStatus where
  | PENDING | APPROVED | FULFILLED | REJECTED | CANCELLED
deriving DecidableEq, Repr

/-- DonationStatus enum of the Prisma schema. -/
inductive DonationStatus where
  | SCHEDULED | COMPLETED | CANCELLED | NO_SHOW
deriving DecidableEq, Repr

/-- Row of the users table (fields the modelled operations read or write). -/
structure User where
  id : Nat
  role : UserRole
  bloodGroup : Option BloodGroup
  city : Option String
  isActive : Bool
  isVerified : Bool
  lastDonation : Option Int
deriving DecidableEq, Repr

/-- Row of the blood_banks table (fields the modelled operations read). -/
structure BloodBank where
  id : Nat
  city : String
  isActive : Bool
  isVerified : Bool
deriving DecidableEq, Repr

/-- Row of the blood_inventory table. -/
structure BloodInventory where
  id : Nat
  bloodBankId : Nat
  bloodGroup : BloodGroup
  quantity : Int
  minimumQuantity : Int
  maximumQuantity : Int
  lastUpdated : Int
deriving DecidableEq, Repr

/-- Row of the blood_requests table (fields the modelled operations touch). -/
structure BloodRequest where
  id : Nat
  requesterId : Nat
  hospitalId : Option Nat
  bloodBankId : Option Nat
  bloodGroup : BloodGroup
  quantityNeeded : Int
  urgency : String
  patientName : String
  status : RequestStatus
  approvedBy : Option String
  approvedAt : Option Int
  fulfilledAt : Option Int
deriving DecidableEq, Repr

/-- Row of the donations table (fields the modelled operations touch). -/
structure Donation where
  id : Nat
  donorId : Nat
  bloodBankId : Nat
  bloodGroup : BloodGroup
  quantity : Int
  scheduledDate : Int
  donationDate : Option Int
  status : DonationStatus
  hemoglobinLevel : Option Int
  bloodPressure : Option String
  weight : Option Int
  temperature : Option Int
  isEligible : Bool
  rejectionReason : Option String
  unitSerialNumber : Option String
  collectedBy : Option String
  expiryDate : Option Int
deriving DecidableEq, Repr

/-- The relational database state. -/
structure DB where
  users : List User
  bloodBanks : List BloodBank
  inventory : List BloodInventory
  requests : List BloodRequest
  donations : List Donation
deriving DecidableEq, Repr

instance {ε α : Type} [DecidableEq ε] [DecidableEq α] : DecidableEq (Except ε α)
  | .ok a, .ok b =>
    if h : a = b then .isTrue (by rw [h]) else .isFalse (by intro hc; cases hc; exact h rfl)
  | .error a, .error b =>
    if h : a = b then .isTrue (by rw [h]) else .isFalse (by intro hc; cases hc; exact h rfl)
  | .ok _, .error _ => .isFalse (by intro hc; cases hc)
  | .error _, .ok _ => .isFalse (by intro hc; cases hc)

/-- Milliseconds per day, the unit used by the source for day arithmetic. -/
def msPerDay : Int := 24 * 60 * 60 * 1000

/-- prisma.user.findUnique on the primary key. -/
def findUser (db : DB) (uid : Nat) : Option User :=
  db.users.find? fun u => decide (u.id = uid)

/-- prisma.bloodBank.findUnique on the primary key. -/
def findBank (db : DB) (bid : Nat) : Option BloodBank :=
  db.bloodBanks.find? fun b => decide (b.id = bid)

/-- prisma.bloodRequest.findUnique on the primary key. -/
def findRequest (db : DB) (rid : Nat) : Option BloodRequest :=
  db.requests.find? fun r => decide (r.id = rid)

/-- prisma.donation.findUnique on the primary key. -/
def findDonation (db : DB) (did : Nat) : Option Donation :=
  db.donations.find? fun d => decide (d.id = did)

/-- prisma.bloodInventory.findUnique on the composite unique key
bloodBankId_bloodGroup. -/
def findInventory (db : DB) (bankId : Nat) (bg : BloodGroup) : Option BloodInventory :=
  db.inventory.find? fun inv => decide (inv.bloodBankId = bankId ∧ inv.bloodGroup = bg)

/-- The lastDonation column of a user, read through the primary key. -/
def lastDonationOf (db : DB) (uid : Nat) : Option Int :=
  (findUser db uid).bind User.lastDonation

/-- Error raised by the storage layer.  The migration declares
CREATE UNIQUE INDEX blood_inventory_bloodBankId_bloodGroup_key, so a second row
for the same (bloodBankId, bloodGroup) pair is rejected. -/
inductive StorageError where
  | uniqueViolation
deriving DecidableEq, Repr

/-- Storage-layer insert into blood_inventory: the unique index on
(bloodBankId, bloodGroup) rejects a duplicate pair. -/
def insertStockLine (db : DB) (row : BloodInventory) : Except StorageError DB :=
  match findInventory db row.bloodBankId row.bloodGroup with
  | some _ => .error .uniqueViolation
  | none => .ok { db with inventory := db.inventory ++ [row] }

/-- Errors of approveBloodRequest (docs/api-examples.ts Example 7): a 404 when
the request does not exist, and the 400 "Insufficient blood inventory" response
raised when the inventory row is missing or its quantity is below the need
(one shared error for both cases, with no amounts attached, exactly as in the
source's single `if (!inventory || inventory.quantity < ...)`). -/
inductive ApproveError where
  | requestNotFound
  | insufficientInventory
deriving DecidableEq, Repr

/-- approveBloodRequest (docs/api-examples.ts Example 7,
POST /api/blood-requests/:id/approve): looks up the request and the blood
bank's inventory line for its group, fails when the line is missing or short,
and otherwise sets the request's status to APPROVED, recording the blood bank,
the approver and approvedAt.  The inventory row is not modified. -/
def approveBloodRequest (db : DB) (requestId bloodBankId : Nat)
    (approvedBy : String) (now : Int) : Except ApproveError DB :=
  match findRequest db requestId with
  | none => .error .requestNotFound
  | some req =>
    match findInventory db bloodBankId req.bloodGroup with
    | none => .error .insufficientInventory
    | some inv =>
      if inv.quantity < req.quantityNeeded then .error .insufficientInventory
      else .ok { db with requests := db.requests.map fun r =>
        if r.id = requestId then
          { r with
            status := .APPROVED,
            bloodBankId := some bloodBankId,
            approvedBy := some approvedBy,
            approvedAt := some now }
        else r }

/-- Input of createBloodRequestWithInventoryUpdate (the transaction demo). -/
structure RequestInput where
  requesterId : Nat
  bloodBankId : Nat
  bloodGroup : BloodGroup
  quantityNeeded : Int
  patientName : String
  requiredBy : Int
deriving DecidableEq, Repr

/-- Fault-injection point for the transaction body: an infrastructure failure
(e.g. the network timeout of the repository's rollback documentation) raised
after the first write, or after both writes but before the commit. -/
inductive TxFault where
  | noFault
  | afterCreate
  | afterDecrement
deriving DecidableEq, Repr

/-- Errors thrown inside the transaction demo body.  `noInventoryFound` is the
"No inventory found for {group} at this blood bank" throw (it names the blood
group only); `insufficientInventory` is the "Insufficient inventory:
Available {a} units, Requested {r} units" throw, carrying both amounts. -/
inductive TxError where
  | noInventoryFound (bloodGroup : BloodGroup)
  | insufficientInventory (available requested : Int)
  | infrastructureFault
deriving DecidableEq, Repr

/-- Pointwise effect of the UPDATE ... SET quantity = quantity - n write on one
row: the row matching the composite key is decremented, others are untouched. -/
def decLine (bankId : Nat) (bg : BloodGroup) (n : Int) (inv : BloodInventory) :
    BloodInventory :=
  if inv.bloodBankId = bankId ∧ inv.bloodGroup = bg then
    { inv with quantity := inv.quantity - n }
  else inv

/-- Pointwise effect of the upsert's UPDATE quantity increment on one row. -/
def incLine (bankId : Nat) (bg : BloodGroup) (now : Int) (inv : BloodInventory) :
    BloodInventory :=
  if inv.bloodBankId = bankId ∧ inv.bloodGroup = bg then
    { inv with quantity := inv.quantity + 1, lastUpdated := now }
  else inv

/-- A freshly inserted blood_inventory row with the schema and source literals
minimumQuantity 10 and maximumQuantity 100. -/
def mkStockRow (id bankId : Nat) (bg : BloodGroup) (q now : Int) : BloodInventory :=
  { id := id, bloodBankId := bankId, bloodGroup := bg, quantity := q,
    minimumQuantity := 10, maximumQuantity := 100, lastUpdated := now }

/-- The UPDATE blood_inventory SET quantity = quantity - n write, keyed on the
composite unique key. -/
def decrementInventory (db : DB) (bankId : Nat) (bg : BloodGroup) (n : Int) : DB :=
  { db with inventory := db.inventory.map (decLine bankId bg n) }

/-- Row written by the tx.bloodRequest.create of the transaction demo, with
urgency "NORMAL" and the "Auto-approve for demo" status APPROVED. -/
def mkTxRequest (rd : RequestInput) (freshId : Nat) : BloodRequest :=
  { id := freshId, requesterId := rd.requesterId, hospitalId := none,
    bloodBankId := some rd.bloodBankId, bloodGroup := rd.bloodGroup,
    quantityNeeded := rd.quantityNeeded, urgency := "NORMAL",
    patientName := rd.patientName, status := .APPROVED,
    approvedBy := none, approvedAt := none, fulfilledAt := none }

/-- Body of the prisma.$transaction in createBloodRequestWithInventoryUpdate
(scripts/demo-transaction.ts): check availability, create the request with
status APPROVED ("Auto-approve for demo"), decrement the inventory.  `fault`
injects an infrastructure failure between the steps. -/
def createRequestTxBody (rd : RequestInput) (freshId : Nat) (fault : TxFault)
    (db : DB) : Except TxError DB :=
  match findInventory db rd.bloodBankId rd.bloodGroup with
  | none => .error (.noInventoryFound rd.bloodGroup)
  | some inv =>
    if inv.quantity < rd.quantityNeeded then
      .error (.insufficientInventory inv.quantity rd.quantityNeeded)
    else
      let db1 := { db with requests := db.requests ++ [mkTxRequest rd freshId] }
      if fault = .afterCreate then .error .infrastructureFault
      else
        let db2 := decrementInventory db1 rd.bloodBankId rd.bloodGroup rd.quantityNeeded
        if fault = .afterDecrement then .error .infrastructureFault
        else .ok db2

/-- prisma.$transaction semantics (PostgreSQL BEGIN / COMMIT / ROLLBACK, as in
the repository's rollback documentation): a thrown error aborts the transaction
and every write of the body is rolled back.  The result pairs the value
reported to the caller with the database state observable afterwards. -/
def runTransaction (body : DB → Except TxError DB) (db : DB) :
    Except TxError DB × DB :=
  match body db with
  | .ok db2 => (.ok db2, db2)
  | .error e => (.error e, db)

/-- createBloodRequestWithInventoryUpdate (scripts/demo-transaction.ts): the
transaction body run under prisma.$transaction. -/
def createBloodRequestWithInventoryUpdate (db : DB) (rd : RequestInput)
    (freshId : Nat) (fault : TxFault) : Except TxError DB × DB :=
  runTransaction (createRequestTxBody rd freshId fault) db

/-- Request body of POST /api/donations/:id/complete (docs/api-examples.ts
Example 4).  There is no rejectionReason field in it. -/
structure HealthCheckInput where
  hemoglobinLevel : Option Int
  bloodPressure : Option String
  weight : Option Int
  temperature : Option Int
  isEligible : Bool
  unitSerialNumber : Option String
  collectedBy : Option String
deriving DecidableEq, Repr

/-- Error of completeDonation: the 404 when the donation does not exist. -/
inductive CompleteError where
  | donationNotFound
deriving DecidableEq, Repr

/-- The tx.bloodInventory.upsert of completeDonation: increment the existing
line's quantity by 1, or create it with quantity 1 (and the source's literal
minimumQuantity 10 / maximumQuantity 100). -/
def upsertInventoryIncrementOne (db : DB) (bankId : Nat) (bg : BloodGroup)
    (freshId : Nat) (now : Int) : DB :=
  match findInventory db bankId bg with
  | some _ => { db with inventory := db.inventory.map (incLine bankId bg now) }
  | none => { db with inventory := db.inventory ++ [mkStockRow freshId bankId bg 1 now] }

/-- The tx.donation.update of completeDonation: COMPLETED status,
donationDate = now, health-check fields from the request body, expiryDate =
now + 35 days.  Neither the current status nor rejectionReason is touched. -/
def completeDonationRecordUpdate (db : DB) (donationId : Nat)
    (hc : HealthCheckInput) (now : Int) : DB :=
  { db with donations := db.donations.map fun x =>
      if x.id = donationId then
        { x with
          status := .COMPLETED,
          donationDate := some now,
          hemoglobinLevel := hc.hemoglobinLevel,
          bloodPressure := hc.bloodPressure,
          weight := hc.weight,
          temperature := hc.temperature,
          isEligible := hc.isEligible,
          unitSerialNumber := hc.unitSerialNumber,
          collectedBy := hc.collectedBy,
          expiryDate := some (now + 35 * msPerDay) }
      else x }

/-- The tx.user.update of completeDonation: set the donor's lastDonation
column to the completion time. -/
def updateDonorLastDonation (db : DB) (donorId : Nat) (now : Int) : DB :=
  { db with users := db.users.map fun u =>
      if u.id = donorId then { u with lastDonation := some now } else u }

/-- completeDonation (docs/api-examples.ts Example 4,
POST /api/donations/:id/complete): inside one prisma.$transaction, set the
donation to COMPLETED with donationDate = now, record the health-check body
fields and expiryDate = now + 35 days; then, only if isEligible, upsert the
(bloodBank, bloodGroup) inventory line by +1 and set the donor's lastDonation
to now.  The donation's current status is not checked, and rejectionReason is
never written. -/
def completeDonation (db : DB) (donationId : Nat) (hc : HealthCheckInput)
    (freshInvId : Nat) (now : Int) : Except CompleteError DB :=
  match findDonation db donationId with
  | none => .error .donationNotFound
  | some d =>
    let db1 := completeDonationRecordUpdate db donationId hc now
    if hc.isEligible then
      let db2 := upsertInventoryIncrementOne db1 d.bloodBankId d.bloodGroup freshInvId now
      .ok (updateDonorLastDonation db2 d.donorId now)
    else .ok db1

/-- The validStatuses check of the PUT /api/blood-requests/[id] handler:
`validStatuses.includes(body.status)` over the raw body string. -/
def parseRequestStatus (s : String) : Option RequestStatus :=
  if s = "PENDING" then some .PENDING
  else if s = "APPROVED" then some .APPROVED
  else if s = "REJECTED" then some .REJECTED
  else if s = "FULFILLED" then some .FULFILLED
  else if s = "CANCELLED" then some .CANCELLED
  else none

/-- Errors of the PUT handler: the 400 VALIDATION_ERROR ("Invalid status
value") and the 404 NOT_FOUND (Prisma error P2025). -/
inductive PutError where
  | validationError
  | notFound
deriving DecidableEq, Repr

/-- PUT /api/blood-requests/[id] with a body containing the status field
(src/app/api/blood-requests/[id]/route.ts): the only validation applied to a
status change is membership in the five enum values; the current status is
never read and no transition table is consulted. -/
def putBloodRequestStatus (db : DB) (requestId : Nat) (statusStr : String) :
    Except PutError DB :=
  match parseRequestStatus statusStr with
  | none => .error .validationError
  | some st =>
    match findRequest db requestId with
    | none => .error .notFound
    | some _ => .ok { db with requests := db.requests.map fun r =>
        if r.id = requestId then { r with status := st } else r }

/-- DELETE /api/blood-requests/[id]: remove the row (404 when absent). -/
def deleteBloodRequest (db : DB) (requestId : Nat) : Except PutError DB :=
  match findRequest db requestId with
  | none => .error .notFound
  | some _ => .ok { db with requests := db.requests.filter fun r => decide (¬ r.id = requestId) }

/-- Validated input of POST /api/blood-requests (the handler rejects
quantityNeeded ≤ 0 with a 400 before creating the PENDING row). -/
def createBloodRequest (db : DB) (freshId requesterId : Nat) (bg : BloodGroup)
    (quantityNeeded : Int) (patientName : String) : Except PutError DB :=
  if quantityNeeded ≤ 0 then .error .validationError
  else .ok { db with requests := db.requests ++
    [{ id := freshId, requesterId := requesterId, hospitalId := none,
       bloodBankId := none, bloodGroup := bg, quantityNeeded := quantityNeeded,
       urgency := "NORMAL", patientName := patientName, status := .PENDING,
       approvedBy := none, approvedAt := none, fulfilledAt := none }] }

/-- Errors of scheduleDonation: donor missing / blood group unset, or the
90-day eligibility rejection. -/
inductive ScheduleError where
  | donorNotFound
  | notEligibleYet
deriving DecidableEq, Repr

/-- The 90-day gate of scheduleDonation: passes when lastDonation is null or
Math.floor((now - lastDonation) / day) is at least 90. -/
def donorEligible90 (lastDonation : Option Int) (now : Int) : Bool :=
  match lastDonation with
  | none => true
  | some t => decide (90 ≤ Int.fdiv (now - t) msPerDay)

/-- scheduleDonation (docs/api-examples.ts Example 3): check the donor exists
with a blood group, enforce Math.floor((now - lastDonation) / day) < 90 as the
rejection condition, then create a SCHEDULED donation with the donor's group
and the schema default quantity 1. -/
def scheduleDonation (db : DB) (freshId donorId bloodBankId : Nat)
    (scheduledDate now : Int) : Except ScheduleError DB :=
  match findUser db donorId with
  | none => .error .donorNotFound
  | some donor =>
    match donor.bloodGroup with
    | none => .error .donorNotFound
    | some g =>
      if donorEligible90 donor.lastDonation now then
        .ok { db with donations := db.donations ++
          [{ id := freshId, donorId := donorId, bloodBankId := bloodBankId,
             bloodGroup := g, quantity := 1, scheduledDate := scheduledDate,
             donationDate := none, status := .SCHEDULED, hemoglobinLevel := none,
             bloodPressure := none, weight := none, temperature := none,
             isEligible := true, rejectionReason := none, unitSerialNumber := none,
             collectedBy := none, expiryDate := none }] }
      else .error .notEligibleYet

/-- Insertion step of the sort used below (structural recursion, so concrete
instances evaluate inside the kernel). -/
def insertBy {α : Type} (le : α → α → Bool) (a : α) : List α → List α
  | [] => [a]
  | b :: l => if le a b then a :: b :: l else b :: insertBy le a l

/-- Insertion sort with a boolean comparator, modelling the ORDER BY of the
Prisma queries. -/
def sortBy {α : Type} (le : α → α → Bool) : List α → List α
  | [] => []
  | a :: l => insertBy le a (sortBy le l)

/-- Where clause of findEligibleDonors (docs/api-examples.ts Example 5):
role DONOR, optional bloodGroup and city filters, isActive, isVerified, and
lastDonation null OR lastDonation < ninetyDaysAgo (strict `lt`). -/
def eligibleDonorPred (bg : Option BloodGroup) (city : Option String)
    (ninetyDaysAgo : Int) (u : User) : Bool :=
  decide (u.role = .DONOR)
  && (match bg with | none => true | some g => decide (u.bloodGroup = some g))
  && (match city with | none => true | some c => decide (u.city = some c))
  && u.isActive && u.isVerified
  && (match u.lastDonation with | none => true | some t => decide (t < ninetyDaysAgo))

/-- ORDER BY lastDonation ASC comparator; PostgreSQL places NULLs last in
ascending order. -/
def lastDonationAsc (a b : User) : Bool :=
  match a.lastDonation, b.lastDonation with
  | none, none => true
  | none, some _ => false
  | some _, none => true
  | some x, some y => decide (x ≤ y)

/-- findEligibleDonors (docs/api-examples.ts Example 5,
GET /api/donors/eligible): filter on the where clause with
ninetyDaysAgo = now - 90 days (the source's calendar setDate(-90) on a linear
clock) and sort by lastDonation ascending. -/
def findEligibleDonors (db : DB) (bg : Option BloodGroup) (city : Option String)
    (now : Int) : List User :=
  sortBy lastDonationAsc
    (db.users.filter (eligibleDonorPred bg city (now - 90 * msPerDay)))

/-- Where clause of getBloodAvailability (docs/api-examples.ts Example 1):
optional bloodGroup filter, quantity > 0, and the related blood bank matching
the optional city filter with isActive and isVerified both required. -/
def availabilityPred (db : DB) (city : Option String) (bg : Option BloodGroup)
    (inv : BloodInventory) : Bool :=
  (match bg with | none => true | some g => decide (inv.bloodGroup = g))
  && decide (0 < inv.quantity)
  && (match findBank db inv.bloodBankId with
      | none => false
      | some b =>
        (match city with | none => true | some c => decide (b.city = c))
        && b.isActive && b.isVerified)

/-- ORDER BY quantity DESC comparator. -/
def quantityDesc (a b : BloodInventory) : Bool :=
  decide (b.quantity ≤ a.quantity)

/-- getBloodAvailability (docs/api-examples.ts Example 1,
GET /api/blood-availability): filter the inventory on the where clause and
sort by quantity descending. -/
def getBloodAvailability (db : DB) (city : Option String) (bg : Option BloodGroup) :
    List BloodInventory :=
  sortBy quantityDesc (db.inventory.filter (availabilityPred db city bg))

/-- Result of a fallible operation as observed by later callers: the new state
on success, the unchanged prior state on a reported error. -/
def settle {ε : Type} (r : Except ε DB) (db : DB) : DB :=
  match r with
  | .ok db2 => db2
  | .error _ => db

/-- One invocation of a state-mutating operation of the repository, carrying
the caller-supplied inputs, the database-generated fresh ids and the wall
clock reading of the call.  `seedStock` is the storage-level insert used by the
seed script, whose quantities are the non-negative literals of the seed
(random 20 to 70 or 15 to 65 units). -/
inductive Op where
  | seedStock (id bankId : Nat) (bg : BloodGroup) (quantity : Nat) (now : Int)
  | createRequest (freshId requesterId : Nat) (bg : BloodGroup)
      (quantityNeeded : Int) (patientName : String)
  | putStatus (requestId : Nat) (statusStr : String)
  | deleteRequest (requestId : Nat)
  | schedule (freshId donorId bankId : Nat) (scheduledDate now : Int)
  | approve (requestId bankId : Nat) (approvedBy : String) (now : Int)
  | createRequestTx (rd : RequestInput) (freshId : Nat) (fault : TxFault)
  | complete (donationId : Nat) (hc : HealthCheckInput) (freshInvId : Nat) (now : Int)
deriving DecidableEq, Repr

/-- The database state observable after one operation (errors leave the state
unchanged; the transaction demo already reports its observable state). -/
def applyOp (db : DB) : Op → DB
  | .seedStock id bankId bg q now =>
      settle (insertStockLine db (mkStockRow id bankId bg (q : Int) now)) db
  | .createRequest freshId requesterId bg q patientName =>
      settle (createBloodRequest db freshId requesterId bg q patientName) db
  | .putStatus requestId s => settle (putBloodRequestStatus db requestId s) db
  | .deleteRequest requestId => settle (deleteBloodRequest db requestId) db
  | .schedule freshId donorId bankId sd now =>
      settle (scheduleDonation db freshId donorId bankId sd now) db
  | .approve requestId bankId approvedBy now =>
      settle (approveBloodRequest db requestId bankId approvedBy now) db
  | .createRequestTx rd freshId fault =>
      (createBloodRequestWithInventoryUpdate db rd freshId fault).2
  | .complete donationId hc freshInvId now =>
      settle (completeDonation db donationId hc freshInvId now) db

/-- The database state after a sequence of operations. -/
def applyOps (db : DB) : List Op → DB
  | [] => db
  | op :: ops => applyOps (applyOp db op) ops

/-- Wall clock reading with which an operation writes the lastDonation column;
completeDonation is the only writer of that column. -/
def opLastDonationWrite : Op → Option Int
  | .complete _ _ _ now => some now
  | _ => none

/-- Invariant: at most one blood_inventory row per (bloodBankId, bloodGroup)
pair (the composite unique index of the migration). -/
def StockUnique (db : DB) : Prop :=
  db.inventory.Pairwise fun a b =>
    ¬(a.bloodBankId = b.bloodBankId ∧ a.bloodGroup = b.bloodGroup)

/-- Invariant: every blood_inventory quantity is a non-negative integer. -/
def StockNonneg (db : DB) : Prop :=
  ∀ inv ∈ db.inventory, 0 ≤ inv.quantity

theorem find?_map_of_pred_eq {α : Type} (f : α → α) (p : α → Bool)
    (hf : ∀ a, p (f a) = p a) :
    ∀ l : List α, (l.map f).find? p = (l.find? p).map f := by
  intro l
  induction l with
  | nil => rfl
  | cons a l ih =>
    by_cases h : p a = true
    · rw [List.map_cons, List.find?_cons_of_pos _ ((hf a).trans h),
        List.find?_cons_of_pos _ h, Option.map_some']
    · rw [List.map_cons, List.find?_cons_of_neg _ (by rw [hf a]; exact h),
        List.find?_cons_of_neg _ h, ih]

theorem mem_insertBy {α : Type} (le : α → α → Bool) (a x : α) (l : List α) :
    x ∈ insertBy le a l ↔ x = a ∨ x ∈ l := by
  induction l with
  | nil => simp [insertBy]
  | cons b l ih =>
    by_cases h : le a b = true
    · simp only [insertBy, if_pos h, List.mem_cons]
    · simp only [insertBy, if_neg h, List.mem_cons, ih]
      tauto

theorem mem_sortBy {α : Type} (le : α → α → Bool) (x : α) (l : List α) :
    x ∈ sortBy le l ↔ x ∈ l := by
  induction l with
  | nil => simp [sortBy]
  | cons a l ih => simp [sortBy, mem_insertBy, ih]

theorem pairwise_insertBy {α : Type} (le : α → α → Bool)
    (htr : ∀ a b c, le a b = true → le b c = true → le a c = true)
    (hto : ∀ a b, le a b = true ∨ le b a = true)
    (a : α) (l : List α) (h : l.Pairwise fun x y => le x y = true) :
    (insertBy le a l).Pairwise fun x y => le x y = true := by
  induction l with
  | nil => simp [insertBy]
  | cons b l ih =>
    rw [List.pairwise_cons] at h
    obtain ⟨hb, hl⟩ := h
    by_cases hab : le a b = true
    · rw [insertBy, if_pos hab, List.pairwise_cons]
      refine ⟨?_, List.pairwise_cons.mpr ⟨hb, hl⟩⟩
      intro y hy
      rcases List.mem_cons.mp hy with rfl | hy
      · exact hab
      · exact htr a b y hab (hb y hy)
    · rw [insertBy, if_neg hab, List.pairwise_cons]
      refine ⟨?_, ih hl⟩
      intro y hy
      rcases (mem_insertBy le a y l).mp hy with rfl | hy
      · rcases hto y b with h1 | h1
        · exact absurd h1 hab
        · exact h1
      · exact hb y hy

theorem pairwise_sortBy {α : Type} (le : α → α → Bool)
    (htr : ∀ a b c, le a b = true → le b c = true → le a c = true)
    (hto : ∀ a b, le a b = true ∨ le b a = true) (l : List α) :
    (sortBy le l).Pairwise fun x y => le x y = true := by
  induction l with
  | nil => simp [sortBy]
  | cons a l ih => exact pairwise_insertBy le htr hto a _ ih

/-- Under the uniqueness invariant, any row matching the composite key of a
found row is that row. -/
theorem eq_of_mem_pair {l : List BloodInventory} {b : Nat} {g : BloodGroup}
    {inv : BloodInventory}
    (hu : l.Pairwise fun a c =>
      ¬(a.bloodBankId = c.bloodBankId ∧ a.bloodGroup = c.bloodGroup))
    (hf : l.find? (fun i => decide (i.bloodBankId = b ∧ i.bloodGroup = g)) = some inv)
    {x : BloodInventory} (hx : x ∈ l)
    (hxp : x.bloodBankId = b ∧ x.bloodGroup = g) : x = inv := by
  induction l with
  | nil => cases hx
  | cons a l ih =>
    rw [List.pairwise_cons] at hu
    obtain ⟨ha, hl⟩ := hu
    by_cases hpa : a.bloodBankId = b ∧ a.bloodGroup = g
    · rw [List.find?_cons_of_pos _ (by simpa using hpa)] at hf
      cases hf
      rcases List.mem_cons.mp hx with rfl | hx
      · rfl
      · exact absurd ⟨hpa.1.trans hxp.1.symm, hpa.2.trans hxp.2.symm⟩ (ha x hx)
    · rw [List.find?_cons_of_neg _ (by simpa using hpa)] at hf
      rcases List.mem_cons.mp hx with rfl | hx
      · exact absurd hxp hpa
      · exact ih hl hf hx

theorem createRequestTxBody_ok {rd : RequestInput} {freshId : Nat} {fault : TxFault}
    {db db2 : DB} (h : createRequestTxBody rd freshId fault db = .ok db2) :
    ∃ inv, findInventory db rd.bloodBankId rd.bloodGroup = some inv ∧
      ¬inv.quantity < rd.quantityNeeded ∧ fault = .noFault ∧
      db2 = decrementInventory
        { db with requests := db.requests ++ [mkTxRequest rd freshId] }
        rd.bloodBankId rd.bloodGroup rd.quantityNeeded := by
  cases hinv : findInventory db rd.bloodBankId rd.bloodGroup with
  | none => simp [createRequestTxBody, hinv] at h
  | some inv =>
    by_cases hq : inv.quantity < rd.quantityNeeded
    · simp [createRequestTxBody, hinv, hq] at h
    · cases fault <;> simp [createRequestTxBody, hinv, hq] at h
      exact ⟨inv, rfl, hq, rfl, h.symm⟩

theorem upsert_users (db : DB) (bankId : Nat) (bg : BloodGroup) (freshId : Nat)
    (now : Int) :
    (upsertInventoryIncrementOne db bankId bg freshId now).users = db.users := by
  cases h : findInventory db bankId bg <;> simp [upsertInventoryIncrementOne, h]

theorem findUser_congr {db db2 : DB} (uid : Nat) (h : db2.users = db.users) :
    findUser db2 uid = findUser db uid := by
  unfold findUser
  rw [h]

theorem lastDonationOf_updateDonor (db : DB) (uid donorId : Nat) (now : Int) :
    lastDonationOf (updateDonorLastDonation db donorId now) uid =
      match findUser db uid with
      | none => none
      | some u => if u.id = donorId then some now else u.lastDonation := by
  unfold lastDonationOf updateDonorLastDonation findUser
  rw [show (({ db with users := db.users.map fun u =>
      if u.id = donorId then { u with lastDonation := some now } else u } : DB).users)
      = db.users.map fun u =>
        if u.id = donorId then { u with lastDonation := some now } else u from rfl]
  rw [find?_map_of_pred_eq _ _ (fun u => by by_cases h : u.id = donorId <;> simp [h])]
  cases h : db.users.find? fun u => decide (u.id = uid) with
  | none => rfl
  | some u => by_cases hid : u.id = donorId <;> simp [hid]

/-- Every modelled operation either leaves a user's lastDonation unchanged or
writes its own wall clock reading into it. -/
theorem lastDonation_applyOp (db : DB) (op : Op) (uid : Nat) :
    lastDonationOf (applyOp db op) uid = lastDonationOf db uid ∨
    ∃ n, opLastDonationWrite op = some n ∧
      lastDonationOf (applyOp db op) uid = some n := by
  cases op with
  | seedStock id bankId bg q now =>
    left
    cases h : findInventory db bankId bg with
    | none =>
      simp only [applyOp, insertStockLine, mkStockRow, h]
      rfl
    | some inv0 =>
      simp only [applyOp, insertStockLine, mkStockRow, h]
      rfl
  | createRequest freshId requesterId bg q patientName =>
    left
    by_cases hq : q ≤ 0
    · simp only [applyOp, createBloodRequest, if_pos hq]
      rfl
    · simp only [applyOp, createBloodRequest, if_neg hq]
      rfl
  | putStatus requestId s =>
    left
    cases hp : parseRequestStatus s with
    | none =>
      simp only [applyOp, putBloodRequestStatus, hp]
      rfl
    | some st =>
      cases hr : findRequest db requestId with
      | none =>
        simp only [applyOp, putBloodRequestStatus, hp, hr]
        rfl
      | some req =>
        simp only [applyOp, putBloodRequestStatus, hp, hr]
        rfl
  | deleteRequest requestId =>
    left
    cases hr : findRequest db requestId with
    | none =>
      simp only [applyOp, deleteBloodRequest, hr]
      rfl
    | some req =>
      simp only [applyOp, deleteBloodRequest, hr]
      rfl
  | schedule freshId donorId bankId sd now =>
    left
    cases hu : findUser db donorId with
    | none =>
      simp only [applyOp, scheduleDonation, hu]
      rfl
    | some donor =>
      cases hg : donor.bloodGroup with
      | none =>
        simp only [applyOp, scheduleDonation, hu, hg]
        rfl
      | some g =>
        cases he : donorEligible90 donor.lastDonation now with
        | false =>
          simp only [applyOp, scheduleDonation, hu, hg, he]
          rfl
        | true =>
          simp only [applyOp, scheduleDonation, hu, hg, he]
          rfl
  | approve requestId bankId approvedBy now =>
    left
    cases hr : findRequest db requestId with
    | none =>
      simp only [applyOp, approveBloodRequest, hr]
      rfl
    | some req =>
      cases hinv : findInventory db bankId req.bloodGroup with
      | none =>
        simp only [applyOp, approveBloodRequest, hr, hinv]
        rfl
      | some inv =>
        by_cases hq : inv.quantity < req.quantityNeeded
        · simp only [applyOp, approveBloodRequest, hr, hinv, if_pos hq]
          rfl
        · simp only [applyOp, approveBloodRequest, hr, hinv, if_neg hq]
          rfl
  | createRequestTx rd freshId fault =>
    left
    show lastDonationOf (createBloodRequestWithInventoryUpdate db rd freshId fault).2 uid = _
    unfold createBloodRequestWithInventoryUpdate runTransaction
    cases hb : createRequestTxBody rd freshId fault db with
    | error e => rfl
    | ok db2 =>
      obtain ⟨inv, hinv, hq, hf, rfl⟩ := createRequestTxBody_ok hb
      rfl
  | complete donationId hc freshInvId now =>
    cases hd : findDonation db donationId with
    | none =>
      left
      simp only [applyOp, completeDonation, hd]
      rfl
    | some d =>
      cases hel : hc.isEligible with
      | false =>
        left
        simp only [applyOp, completeDonation, hd, hel]
        rfl
      | true =>
        have hred : applyOp db (.complete donationId hc freshInvId now) =
            updateDonorLastDonation
              (upsertInventoryIncrementOne
                (completeDonationRecordUpdate db donationId hc now)
                d.bloodBankId d.bloodGroup freshInvId now)
              d.donorId now := by
          simp only [applyOp, completeDonation, hd, hel]
          rfl
        have husers :
            (upsertInventoryIncrementOne
              (completeDonationRecordUpdate db donationId hc now)
              d.bloodBankId d.bloodGroup freshInvId now).users = db.users := by
          rw [upsert_users]
          rfl
        rw [hred, lastDonationOf_updateDonor, findUser_congr uid husers]
        cases hu : findUser db uid with
        | none =>
          left
          simp [lastDonationOf, hu]
        | some u =>
          by_cases hid : u.id = d.donorId
          · right
            exact ⟨now, rfl, by simp [hid]⟩
          · left
            simp [hid, lastDonationOf, hu]

theorem stockUnique_of_inventory_eq {db2 db : DB} (h : db2.inventory = db.inventory)
    (hu : StockUnique db) : StockUnique db2 := by
  unfold StockUnique at *
  rw [h]
  exact hu

theorem stockNonneg_of_inventory_eq {db2 db : DB} (h : db2.inventory = db.inventory)
    (hn : StockNonneg db) : StockNonneg db2 := by
  unfold StockNonneg at *
  rw [h]
  exact hn

theorem stock_append {db : DB} {row : BloodInventory}
    (hu : StockUnique db) (hn : StockNonneg db)
    (hnone : findInventory db row.bloodBankId row.bloodGroup = none)
    (hq : 0 ≤ row.quantity) :
    StockUnique { db with inventory := db.inventory ++ [row] } ∧
    StockNonneg { db with inventory := db.inventory ++ [row] } := by
  constructor
  · unfold StockUnique at *
    rw [show ({ db with inventory := db.inventory ++ [row] } : DB).inventory
      = db.inventory ++ [row] from rfl, List.pairwise_append]
    refine ⟨hu, by simp, ?_⟩
    intro a ha b hb
    rw [List.mem_singleton] at hb
    subst hb
    have h2 := List.find?_eq_none.mp hnone a ha
    simpa using h2
  · intro y hy
    rw [show ({ db with inventory := db.inventory ++ [row] } : DB).inventory
      = db.inventory ++ [row] from rfl] at hy
    rcases List.mem_append.mp hy with h | h
    · exact hn y h
    · rw [List.mem_singleton] at h
      subst h
      exact hq

theorem stockUnique_map {db : DB} (f : BloodInventory → BloodInventory)
    (hid : ∀ a, (f a).bloodBankId = a.bloodBankId ∧ (f a).bloodGroup = a.bloodGroup)
    (hu : StockUnique db) :
    StockUnique { db with inventory := db.inventory.map f } := by
  unfold StockUnique at *
  refine List.Pairwise.map f ?_ hu
  intro a b hab
  rw [(hid a).1, (hid b).1, (hid a).2, (hid b).2]
  exact hab

theorem stockNonneg_decrement {db : DB} {bankId : Nat} {bg : BloodGroup}
    {inv : BloodInventory} {n : Int}
    (hu : StockUnique db) (hn : StockNonneg db)
    (hfind : findInventory db bankId bg = some inv)
    (hq : n ≤ inv.quantity) :
    StockNonneg (decrementInventory db bankId bg n) := by
  intro y hy
  rw [show (decrementInventory db bankId bg n).inventory
    = db.inventory.map (decLine bankId bg n) from rfl] at hy
  obtain ⟨x, hx, rfl⟩ := List.mem_map.mp hy
  by_cases hp : x.bloodBankId = bankId ∧ x.bloodGroup = bg
  · have hxinv : x = inv := eq_of_mem_pair hu hfind hx hp
    unfold decLine
    rw [if_pos hp, hxinv]
    show 0 ≤ inv.quantity - n
    omega
  · unfold decLine
    rw [if_neg hp]
    exact hn x hx

theorem stockNonneg_increment {db : DB} {bankId : Nat} {bg : BloodGroup} {now : Int}
    (hn : StockNonneg db) :
    StockNonneg { db with inventory := db.inventory.map (incLine bankId bg now) } := by
  intro y hy
  obtain ⟨x, hx, rfl⟩ := List.mem_map.mp hy
  by_cases hp : x.bloodBankId = bankId ∧ x.bloodGroup = bg
  · unfold incLine
    rw [if_pos hp]
    have := hn x hx
    show 0 ≤ x.quantity + 1
    omega
  · unfold incLine
    rw [if_neg hp]
    exact hn x hx

theorem stock_upsert {db : DB} {bankId : Nat} {bg : BloodGroup} {freshId : Nat}
    {now : Int} (hu : StockUnique db) (hn : StockNonneg db) :
    StockUnique (upsertInventoryIncrementOne db bankId bg freshId now) ∧
    StockNonneg (upsertInventoryIncrementOne db bankId bg freshId now) := by
  cases h : findInventory db bankId bg with
  | some inv0 =>
    rw [show upsertInventoryIncrementOne db bankId bg freshId now
      = { db with inventory := db.inventory.map (incLine bankId bg now) }
      from by rw [upsertInventoryIncrementOne, h]]
    refine ⟨stockUnique_map _ ?_ hu, stockNonneg_increment hn⟩
    intro a
    by_cases hp : a.bloodBankId = bankId ∧ a.bloodGroup = bg <;> simp [incLine, hp]
  | none =>
    rw [show upsertInventoryIncrementOne db bankId bg freshId now
      = { db with inventory := db.inventory ++ [mkStockRow freshId bankId bg 1 now] }
      from by rw [upsertInventoryIncrementOne, h]]
    exact stock_append hu hn h (by norm_num [mkStockRow])

theorem inventory_createRequest (db : DB) (f r : Nat) (bg : BloodGroup) (q : Int)
    (pn : String) :
    (applyOp db (.createRequest f r bg q pn)).inventory = db.inventory := by
  by_cases hq : q ≤ 0
  · simp only [applyOp, createBloodRequest, if_pos hq]
    rfl
  · simp only [applyOp, createBloodRequest, if_neg hq]
    rfl

theorem inventory_putStatus (db : DB) (rid : Nat) (s : String) :
    (applyOp db (.putStatus rid s)).inventory = db.inventory := by
  cases hp : parseRequestStatus s with
  | none =>
    simp only [applyOp, putBloodRequestStatus, hp]
    rfl
  | some st =>
    cases hr : findRequest db rid <;>
      simp only [applyOp, putBloodRequestStatus, hp, hr] <;> rfl

theorem inventory_deleteRequest (db : DB) (rid : Nat) :
    (applyOp db (.deleteRequest rid)).inventory = db.inventory := by
  cases hr : findRequest db rid <;>
    simp only [applyOp, deleteBloodRequest, hr] <;> rfl

theorem inventory_schedule (db : DB) (f d b : Nat) (sd now : Int) :
    (applyOp db (.schedule f d b sd now)).inventory = db.inventory := by
  cases hu : findUser db d with
  | none =>
    simp only [applyOp, scheduleDonation, hu]
    rfl
  | some donor =>
    cases hg : donor.bloodGroup with
    | none =>
      simp only [applyOp, scheduleDonation, hu, hg]
      rfl
    | some g =>
      cases he : donorEligible90 donor.lastDonation now <;>
        simp only [applyOp, scheduleDonation, hu, hg, he] <;> rfl

theorem inventory_approve (db : DB) (rid b : Nat) (ab : String) (now : Int) :
    (applyOp db (.approve rid b ab now)).inventory = db.inventory := by
  cases hr : findRequest db rid with
  | none =>
    simp only [applyOp, approveBloodRequest, hr]
    rfl
  | some req =>
    cases hinv : findInventory db b req.bloodGroup with
    | none =>
      simp only [applyOp, approveBloodRequest, hr, hinv]
      rfl
    | some inv =>
      by_cases hq : inv.quantity < req.quantityNeeded
      · simp only [applyOp, approveBloodRequest, hr, hinv, if_pos hq]
        rfl
      · simp only [applyOp, approveBloodRequest, hr, hinv, if_neg hq]
        rfl

/-- Every modelled operation preserves both stock invariants. -/
theorem stock_applyOp (db : DB) (op : Op) (hu : StockUnique db) (hn : StockNonneg db) :
    StockUnique (applyOp db op) ∧ StockNonneg (applyOp db op) := by
  cases op with
  | seedStock id bankId bg q now =>
    cases h : findInventory db bankId bg with
    | some inv0 =>
      rw [show applyOp db (.seedStock id bankId bg q now) = db from by
        simp only [applyOp, insertStockLine, mkStockRow, h]; rfl]
      exact ⟨hu, hn⟩
    | none =>
      rw [show applyOp db (.seedStock id bankId bg q now)
        = { db with inventory := db.inventory ++ [mkStockRow id bankId bg (q : Int) now] }
        from by simp only [applyOp, insertStockLine, mkStockRow, h]; rfl]
      exact stock_append hu hn h (Int.natCast_nonneg q)
  | createRequest f r bg q pn =>
    exact ⟨stockUnique_of_inventory_eq (inventory_createRequest db f r bg q pn) hu,
      stockNonneg_of_inventory_eq (inventory_createRequest db f r bg q pn) hn⟩
  | putStatus rid s =>
    exact ⟨stockUnique_of_inventory_eq (inventory_putStatus db rid s) hu,
      stockNonneg_of_inventory_eq (inventory_putStatus db rid s) hn⟩
  | deleteRequest rid =>
    exact ⟨stockUnique_of_inventory_eq (inventory_deleteRequest db rid) hu,
      stockNonneg_of_inventory_eq (inventory_deleteRequest db rid) hn⟩
  | schedule f d b sd now =>
    exact ⟨stockUnique_of_inventory_eq (inventory_schedule db f d b sd now) hu,
      stockNonneg_of_inventory_eq (inventory_schedule db f d b sd now) hn⟩
  | approve rid b ab now =>
    exact ⟨stockUnique_of_inventory_eq (inventory_approve db rid b ab now) hu,
      stockNonneg_of_inventory_eq (inventory_approve db rid b ab now) hn⟩
  | createRequestTx rd freshId fault =>
    show StockUnique (createBloodRequestWithInventoryUpdate db rd freshId fault).2 ∧
      StockNonneg (createBloodRequestWithInventoryUpdate db rd freshId fault).2
    unfold createBloodRequestWithInventoryUpdate runTransaction
    cases hb : createRequestTxBody rd freshId fault db with
    | error e => exact ⟨hu, hn⟩
    | ok db2 =>
      obtain ⟨inv, hinv, hq, hf, rfl⟩ := createRequestTxBody_ok hb
      have hu1 : StockUnique
          { db with requests := db.requests ++ [mkTxRequest rd freshId] } :=
        stockUnique_of_inventory_eq rfl hu
      have hn1 : StockNonneg
          { db with requests := db.requests ++ [mkTxRequest rd freshId] } :=
        stockNonneg_of_inventory_eq rfl hn
      constructor
      · exact stockUnique_map _
          (fun a => by
            by_cases hp : a.bloodBankId = rd.bloodBankId ∧ a.bloodGroup = rd.bloodGroup <;>
              simp [decLine, hp]) hu1
      · exact stockNonneg_decrement hu1 hn1 hinv (by omega)
  | complete donationId hc freshInvId now =>
    cases hd : findDonation db donationId with
    | none =>
      rw [show applyOp db (.complete donationId hc freshInvId now) = db from by
        simp only [applyOp, completeDonation, hd]; rfl]
      exact ⟨hu, hn⟩
    | some d =>
      cases hel : hc.isEligible with
      | false =>
        rw [show applyOp db (.complete donationId hc freshInvId now)
          = completeDonationRecordUpdate db donationId hc now from by
          simp only [applyOp, completeDonation, hd, hel]; rfl]
        exact ⟨stockUnique_of_inventory_eq rfl hu, stockNonneg_of_inventory_eq rfl hn⟩
      | true =>
        rw [show applyOp db (.complete donationId hc freshInvId now)
          = updateDonorLastDonation
              (upsertInventoryIncrementOne
                (completeDonationRecordUpdate db donationId hc now)
                d.bloodBankId d.bloodGroup freshInvId now)
              d.donorId now from by
          simp only [applyOp, completeDonation, hd, hel]; rfl]
        have h1 : StockUnique (completeDonationRecordUpdate db donationId hc now) :=
          stockUnique_of_inventory_eq rfl hu
        have h2 : StockNonneg (completeDonationRecordUpdate db donationId hc now) :=
          stockNonneg_of_inventory_eq rfl hn
        obtain ⟨h3, h4⟩ := @stock_upsert
          (completeDonationRecordUpdate db donationId hc now)
          d.bloodBankId d.bloodGroup freshInvId now h1 h2
        exact ⟨stockUnique_of_inventory_eq rfl h3, stockNonneg_of_inventory_eq rfl h4⟩

/-- Both stock invariants hold in every state reachable by the modelled
operations from a state satisfying them. -/
theorem stock_applyOps (ops : List Op) (db : DB) (hu : StockUnique db)
    (hn : StockNonneg db) :
    StockUnique (applyOps db ops) ∧ StockNonneg (applyOps db ops) := by
  induction ops generalizing db with
  | nil => exact ⟨hu, hn⟩
  | cons op ops ih =>
    obtain ⟨hu2, hn2⟩ := stock_applyOp db op hu hn
    exact ih (applyOp db op) hu2 hn2

/-- C6: a Person's lastDonation timestamp, once set, only moves forward under
any sequence of the modelled operations.  completeDonation writes the wall
clock reading of the call (never any passed-in donation date), so under the
clock-monotonicity hypothesis — the completion times are non-decreasing and do
not precede the stored timestamp — the stored value never moves backward; in
particular an eligible completion whose scheduled donation date lies before
the donor's current lastDonation cannot move lastDonation backward. -/
theorem c6_lastDonation_monotonic (db : DB) (ops : List Op) (uid : Nat) (t : Int)
    (h0 : lastDonationOf db uid = some t)
    (hclock : List.Pairwise (· ≤ ·) (t :: ops.filterMap opLastDonationWrite)) :
    ∃ t2, lastDonationOf (applyOps db ops) uid = some t2 ∧ t ≤ t2 := by
  induction ops generalizing db t with
  | nil => exact ⟨t, h0, le_refl t⟩
  | cons op ops ih =>
    show ∃ t2, lastDonationOf (applyOps (applyOp db op) ops) uid = some t2 ∧ t ≤ t2
    rcases lastDonation_applyOp db op uid with hstep | ⟨n, hw, hstep⟩
    · have h02 : lastDonationOf (applyOp db op) uid = some t := hstep.trans h0
      cases hwo : opLastDonationWrite op with
      | none =>
        refine ih _ _ h02 ?_
        have he : (op :: ops).filterMap opLastDonationWrite
            = ops.filterMap opLastDonationWrite := by
          simp [List.filterMap_cons, hwo]
        rwa [he] at hclock
      | some m =>
        refine ih _ _ h02 ?_
        have he : (op :: ops).filterMap opLastDonationWrite
            = m :: ops.filterMap opLastDonationWrite := by
          simp [List.filterMap_cons, hwo]
        rw [he] at hclock
        exact hclock.sublist
          (List.Sublist.cons₂ t (List.sublist_cons_self m _))
    · have he : (op :: ops).filterMap opLastDonationWrite
          = n :: ops.filterMap opLastDonationWrite := by
        simp [List.filterMap_cons, hw]
      rw [he, List.pairwise_cons] at hclock
      obtain ⟨hhead, htail⟩ := hclock
      have htn : t ≤ n := hhead n (List.mem_cons_self n _)
      obtain ⟨t2, hfin, h2⟩ := ih _ _ hstep htail
      exact ⟨t2, hfin, le_trans htn h2⟩

theorem findInventory_congr {db2 db : DB} (bankId : Nat) (bg : BloodGroup)
    (h : db2.inventory = db.inventory) :
    findInventory db2 bankId bg = findInventory db bankId bg := by
  unfold findInventory
  rw [h]

theorem findInventory_map_pair (db : DB) (bankId : Nat) (bg : BloodGroup)
    (f : BloodInventory → BloodInventory)
    (hf : ∀ a, (f a).bloodBankId = a.bloodBankId ∧ (f a).bloodGroup = a.bloodGroup) :
    findInventory { db with inventory := db.inventory.map f } bankId bg
      = (findInventory db bankId bg).map f := by
  unfold findInventory
  show (db.inventory.map f).find? _ = _
  exact find?_map_of_pred_eq f _
    (fun a => by rw [show (decide ((f a).bloodBankId = bankId ∧ (f a).bloodGroup = bg))
      = decide (a.bloodBankId = bankId ∧ a.bloodGroup = bg) from by
        rw [(hf a).1, (hf a).2]]) db.inventory

theorem findInventory_decrement (db : DB) (bankId : Nat) (bg : BloodGroup) (n : Int) :
    findInventory (decrementInventory db bankId bg n) bankId bg
      = (findInventory db bankId bg).map fun i => { i with quantity := i.quantity - n } := by
  have base := findInventory_map_pair db bankId bg (decLine bankId bg n)
    (fun a => by
      by_cases hp : a.bloodBankId = bankId ∧ a.bloodGroup = bg <;> simp [decLine, hp])
  rw [show findInventory (decrementInventory db bankId bg n) bankId bg
    = findInventory { db with inventory := db.inventory.map (decLine bankId bg n) }
      bankId bg from rfl, base]
  cases h : findInventory db bankId bg with
  | none => rfl
  | some i =>
    have hpi : i.bloodBankId = bankId ∧ i.bloodGroup = bg := by
      simpa using List.find?_some h
    simp [decLine, if_pos hpi]

theorem findInventory_upsert (db : DB) (bankId : Nat) (bg : BloodGroup)
    (freshId : Nat) (now : Int) :
    findInventory (upsertInventoryIncrementOne db bankId bg freshId now) bankId bg
      = match findInventory db bankId bg with
        | some i => some { i with quantity := i.quantity + 1, lastUpdated := now }
        | none => some (mkStockRow freshId bankId bg 1 now) := by
  cases h : findInventory db bankId bg with
  | some i =>
    have base := findInventory_map_pair db bankId bg (incLine bankId bg now)
      (fun a => by
        by_cases hp : a.bloodBankId = bankId ∧ a.bloodGroup = bg <;> simp [incLine, hp])
    rw [show upsertInventoryIncrementOne db bankId bg freshId now
      = { db with inventory := db.inventory.map (incLine bankId bg now) }
      from by rw [upsertInventoryIncrementOne, h], base, h]
    have hpi : i.bloodBankId = bankId ∧ i.bloodGroup = bg := by
      simpa using List.find?_some h
    simp [incLine, if_pos hpi]
  | none =>
    rw [show upsertInventoryIncrementOne db bankId bg freshId now
      = { db with inventory := db.inventory ++ [mkStockRow freshId bankId bg 1 now] }
      from by rw [upsertInventoryIncrementOne, h]]
    unfold findInventory at h ⊢
    rw [show ({ db with inventory := db.inventory ++ [mkStockRow freshId bankId bg 1 now] } : DB).inventory
      = db.inventory ++ [mkStockRow freshId bankId bg 1 now] from rfl]
    rw [List.find?_append, h]
    simp [mkStockRow]

/-- The upsert touches only the (bankId, bg) line: any other (facility, blood
group) key reads exactly as before. -/
theorem findInventory_upsert_other (db : DB) (bankId : Nat) (bg : BloodGroup)
    (freshId : Nat) (now : Int) (bankId2 : Nat) (bg2 : BloodGroup)
    (hne : ¬(bankId2 = bankId ∧ bg2 = bg)) :
    findInventory (upsertInventoryIncrementOne db bankId bg freshId now) bankId2 bg2
      = findInventory db bankId2 bg2 := by
  cases h : findInventory db bankId bg with
  | some i0 =>
    rw [show upsertInventoryIncrementOne db bankId bg freshId now
      = { db with inventory := db.inventory.map (incLine bankId bg now) }
      from by rw [upsertInventoryIncrementOne, h]]
    rw [findInventory_map_pair db bankId2 bg2 (incLine bankId bg now)
      (fun a => by
        by_cases hp : a.bloodBankId = bankId ∧ a.bloodGroup = bg <;> simp [incLine, hp])]
    cases h2 : findInventory db bankId2 bg2 with
    | none => rfl
    | some j =>
      have hpj : j.bloodBankId = bankId2 ∧ j.bloodGroup = bg2 := by
        simpa using List.find?_some h2
      have hnp : ¬(j.bloodBankId = bankId ∧ j.bloodGroup = bg) := by
        intro hc
        exact hne ⟨hpj.1.symm.trans hc.1, hpj.2.symm.trans hc.2⟩
      simp [incLine, hnp]
  | none =>
    rw [show upsertInventoryIncrementOne db bankId bg freshId now
      = { db with inventory := db.inventory ++ [mkStockRow freshId bankId bg 1 now] }
      from by rw [upsertInventoryIncrementOne, h]]
    unfold findInventory
    rw [show ({ db with inventory := db.inventory ++ [mkStockRow freshId bankId bg 1 now] } : DB).inventory
      = db.inventory ++ [mkStockRow freshId bankId bg 1 now] from rfl]
    rw [List.find?_append]
    have hrow : (([mkStockRow freshId bankId bg 1 now]).find? fun inv =>
        decide (inv.bloodBankId = bankId2 ∧ inv.bloodGroup = bg2)) = none := by
      rw [List.find?_cons_of_neg _ (by
        simp only [mkStockRow, decide_eq_true_eq]
        intro hc
        exact hne ⟨hc.1.symm, hc.2.symm⟩)]
      rfl
    rw [hrow, Option.or_none]

theorem findRequest_map_status (db : DB) (rid : Nat) (f : BloodRequest → BloodRequest)
    (hf : ∀ r, (f r).id = r.id) :
    findRequest { db with requests := db.requests.map f } rid
      = (findRequest db rid).map f := by
  unfold findRequest
  exact find?_map_of_pred_eq _ _ (fun r => by rw [hf r]) db.requests

theorem findDonation_map (db : DB) (did : Nat) (f : Donation → Donation)
    (hf : ∀ d, (f d).id = d.id) :
    findDonation { db with donations := db.donations.map f } did
      = (findDonation db did).map f := by
  unfold findDonation
  exact find?_map_of_pred_eq _ _ (fun d => by rw [hf d]) db.donations

theorem lastDonationAsc_trans (a b c : User) (h1 : lastDonationAsc a b = true)
    (h2 : lastDonationAsc b c = true) : lastDonationAsc a c = true := by
  revert h1 h2
  unfold lastDonationAsc
  cases a.lastDonation <;> cases b.lastDonation <;> cases c.lastDonation <;>
    simp <;> omega

theorem lastDonationAsc_total (a b : User) :
    lastDonationAsc a b = true ∨ lastDonationAsc b a = true := by
  unfold lastDonationAsc
  cases a.lastDonation <;> cases b.lastDonation <;> simp <;> omega

theorem eligibleDonorPred_none_iff (ninety : Int) (u : User) :
    eligibleDonorPred none none ninety u = true ↔
      u.role = .DONOR ∧ u.isActive = true ∧ u.isVerified = true ∧
      (u.lastDonation = none ∨ ∃ t, u.lastDonation = some t ∧ t < ninety) := by
  unfold eligibleDonorPred
  cases hld : u.lastDonation with
  | none => simp [hld, and_assoc]
  | some t => simp [hld, and_assoc]

/-- Scenario blood bank X (active and verified). -/
def bankX : BloodBank := { id := 1, city := "Mumbai", isActive := true, isVerified := true }

/-- A blood bank with isActive = false. -/
def bankInactive : BloodBank :=
  { id := 2, city := "Delhi", isActive := false, isVerified := true }

/-- Hospital-side requester. -/
def requesterP : User :=
  { id := 2, role := .HOSPITAL, bloodGroup := none, city := some "Mumbai",
    isActive := true, isVerified := true, lastDonation := none }

/-- A donor with no prior donation. -/
def donorD : User :=
  { id := 4, role := .DONOR, bloodGroup := some .A_POSITIVE, city := some "Mumbai",
    isActive := true, isVerified := true, lastDonation := none }

/-- StockLine(bank X, O+) at quantity 10 (Scenario A). -/
def stockO10 : BloodInventory := mkStockRow 10 1 .O_POSITIVE 10 0

/-- StockLine(bank X, O+) at quantity 2 (Scenario B). -/
def stockO2 : BloodInventory := mkStockRow 10 1 .O_POSITIVE 2 0

/-- StockLine(bank X, A+) at quantity 5. -/
def stockA5 : BloodInventory := mkStockRow 11 1 .A_POSITIVE 5 0

/-- StockLine of the inactive bank at quantity 5. -/
def stockInactive5 : BloodInventory := mkStockRow 12 2 .B_POSITIVE 5 0

/-- A PENDING request for 4 units of O+. -/
def reqPending4 : BloodRequest :=
  { id := 3, requesterId := 2, hospitalId := none, bloodBankId := none,
    bloodGroup := .O_POSITIVE, quantityNeeded := 4, urgency := "NORMAL",
    patientName := "Scenario patient", status := .PENDING, approvedBy := none,
    approvedAt := none, fulfilledAt := none }

/-- A request already in the terminal FULFILLED state. -/
def reqFulfilled : BloodRequest := { reqPending4 with id := 5, status := .FULFILLED }

/-- Transaction-demo input asking for 4 units of O+ from bank X. -/
def rdA : RequestInput :=
  { requesterId := 2, bloodBankId := 1, bloodGroup := .O_POSITIVE,
    quantityNeeded := 4, patientName := "Scenario patient", requiredBy := 0 }

/-- A SCHEDULED donation of 2 units of A+ by donor 4 at bank X. -/
def donC5 : Donation :=
  { id := 7, donorId := 4, bloodBankId := 1, bloodGroup := .A_POSITIVE,
    quantity := 2, scheduledDate := 0, donationDate := none, status := .SCHEDULED,
    hemoglobinLevel := none, bloodPressure := none, weight := none,
    temperature := none, isEligible := true, rejectionReason := none,
    unitSerialNumber := none, collectedBy := none, expiryDate := none }

/-- A SCHEDULED donation of 1 unit of A+ (Scenario C). -/
def donC : Donation := { donC5 with id := 8, quantity := 1 }

/-- A donation already CANCELLED. -/
def donCancelled : Donation := { donC5 with id := 9, status := .CANCELLED }

/-- Passing health check (eligible). -/
def hcPass : HealthCheckInput :=
  { hemoglobinLevel := some 13, bloodPressure := some "120/80", weight := some 70,
    temperature := some 37, isEligible := true, unitSerialNumber := some "UNIT-1",
    collectedBy := some "staff" }

/-- Failing health check (not eligible). -/
def hcFail : HealthCheckInput :=
  { hcPass with isEligible := false, unitSerialNumber := some "UNIT-2" }

/-- Scenario A state: stock 10, one PENDING request for 4 units. -/
def dbA : DB :=
  { users := [requesterP], bloodBanks := [bankX], inventory := [stockO10],
    requests := [reqPending4], donations := [] }

/-- Scenario B state: stock 2. -/
def dbB : DB := { dbA with inventory := [stockO2] }

/-- State with no StockLine at all for (bank X, O+). -/
def dbB0 : DB := { dbA with inventory := [] }

/-- State holding a FULFILLED request and a CANCELLED donation. -/
def dbC4 : DB :=
  { users := [requesterP, donorD], bloodBanks := [bankX], inventory := [stockO10],
    requests := [reqFulfilled], donations := [donCancelled] }

/-- State with stock (X, A+) = 5 and the 2-unit SCHEDULED donation. -/
def dbC5 : DB :=
  { users := [requesterP, donorD], bloodBanks := [bankX], inventory := [stockA5],
    requests := [], donations := [donC5] }

/-- Scenario C state: no StockLine for (X, A+), a 1-unit SCHEDULED donation. -/
def dbC : DB := { dbC5 with inventory := [], donations := [donC] }

/-- A donor whose last donation was exactly 90 days before the query time 0 +
90 days (the boundary instant). -/
def donorBoundary : User :=
  { id := 6, role := .DONOR, bloodGroup := some .O_POSITIVE, city := some "Mumbai",
    isActive := true, isVerified := true, lastDonation := some 0 }

/-- State for the eligibility-boundary counterexample. -/
def dbC8 : DB :=
  { users := [donorBoundary], bloodBanks := [], inventory := [], requests := [],
    donations := [] }

/-- State whose only StockLine belongs to an inactive bank. -/
def dbC10 : DB :=
  { users := [], bloodBanks := [bankInactive], inventory := [stockInactive5],
    requests := [], donations := [] }

/-- State with a donor whose lastDonation is 50 and a SCHEDULED donation. -/
def dbW6 : DB :=
  { users := [{ donorD with lastDonation := some 50 }], bloodBanks := [bankX],
    inventory := [stockA5], requests := [], donations := [donC5] }

/-- Witness operation sequence: complete donation 7 at time 100. -/
def opsW6 : List Op := [.complete 7 hcPass 99 100]

/-- Witness operation sequence for the stock invariants. -/
def opsW9 : List Op :=
  [.seedStock 20 1 .B_POSITIVE 30 0, .createRequestTx rdA 101 .noFault,
   .complete 7 hcPass 102 1000]

/-- A second row for the (bank X, A+) pair already present in dbW6. -/
def rowDup9 : BloodInventory := mkStockRow 99 1 .A_POSITIVE 7 0

/-- C1 counterexample: at Scenario A's state (stock 10, PENDING request for 4
units) neither code path produces quantity 6 together with status FULFILLED.
approveBloodRequest leaves the stock at 10 and sets APPROVED with no
fulfilledAt; the transactional path decrements to 6 but records the created
request as APPROVED with fulfilledAt unset.  The claimed post-state
(quantity 6 and FULFILLED with fulfilledAt set) is reached by no operation. -/
theorem c1_counterexample :
    (approveBloodRequest dbA 3 1 "staff" 50).toOption.map
        (fun db2 => ((findInventory db2 1 .O_POSITIVE).map BloodInventory.quantity,
          (findRequest db2 3).map BloodRequest.status,
          (findRequest db2 3).map BloodRequest.fulfilledAt))
      = some (some 10, some .APPROVED, some none) ∧
    (findInventory (createBloodRequestWithInventoryUpdate dbA rdA 100 .noFault).2
        1 .O_POSITIVE).map BloodInventory.quantity = some 6 ∧
    (findRequest (createBloodRequestWithInventoryUpdate dbA rdA 100 .noFault).2
        100).map BloodRequest.status = some .APPROVED ∧
    (findRequest (createBloodRequestWithInventoryUpdate dbA rdA 100 .noFault).2
        100).map BloodRequest.fulfilledAt = some none := by
  decide

/-- C1 (amended): the transactional path decrements the StockLine by exactly
quantityNeeded and records the request with status APPROVED — not FULFILLED —
with the facility recorded in bloodBankId and fulfilledAt left unset; from
stock 10 and a request for 4 the post-state is quantity 6 and status
APPROVED. -/
theorem c1_amended_decrement_and_approve (db : DB) (rd : RequestInput)
    (freshId : Nat) (inv : BloodInventory)
    (hfind : findInventory db rd.bloodBankId rd.bloodGroup = some inv)
    (hq : rd.quantityNeeded ≤ inv.quantity)
    (hfresh : findRequest db freshId = none) :
    ∃ db2, createBloodRequestWithInventoryUpdate db rd freshId .noFault
        = (.ok db2, db2) ∧
      (findInventory db2 rd.bloodBankId rd.bloodGroup).map BloodInventory.quantity
        = some (inv.quantity - rd.quantityNeeded) ∧
      findRequest db2 freshId = some (mkTxRequest rd freshId) ∧
      (mkTxRequest rd freshId).status = .APPROVED ∧
      (mkTxRequest rd freshId).bloodBankId = some rd.bloodBankId ∧
      (mkTxRequest rd freshId).fulfilledAt = none := by
  have hnlt : ¬inv.quantity < rd.quantityNeeded := not_lt.mpr hq
  have hbody : createRequestTxBody rd freshId .noFault db
      = .ok (decrementInventory
          { db with requests := db.requests ++ [mkTxRequest rd freshId] }
          rd.bloodBankId rd.bloodGroup rd.quantityNeeded) := by
    unfold createRequestTxBody
    simp only [hfind]
    rw [if_neg hnlt]
    rfl
  refine ⟨decrementInventory
    { db with requests := db.requests ++ [mkTxRequest rd freshId] }
    rd.bloodBankId rd.bloodGroup rd.quantityNeeded, ?_, ?_, ?_, rfl, rfl, rfl⟩
  · unfold createBloodRequestWithInventoryUpdate runTransaction
    rw [hbody]
  · rw [findInventory_decrement,
      show findInventory { db with requests := db.requests ++ [mkTxRequest rd freshId] }
        rd.bloodBankId rd.bloodGroup = some inv from hfind]
    rfl
  · show ((db.requests ++ [mkTxRequest rd freshId]).find?
      fun r => decide (r.id = freshId)) = some (mkTxRequest rd freshId)
    rw [List.find?_append,
      show (db.requests.find? fun r => decide (r.id = freshId)) = none from hfresh]
    simp [mkTxRequest]

/-- C1 witness: the amended theorem instantiated at Scenario A's state. -/
theorem c1_witness :
    ∃ db2, createBloodRequestWithInventoryUpdate dbA rdA 100 .noFault
        = (.ok db2, db2) ∧
      (findInventory db2 rdA.bloodBankId rdA.bloodGroup).map BloodInventory.quantity
        = some (stockO10.quantity - rdA.quantityNeeded) ∧
      findRequest db2 100 = some (mkTxRequest rdA 100) ∧
      (mkTxRequest rdA 100).status = .APPROVED ∧
      (mkTxRequest rdA 100).bloodBankId = some rdA.bloodBankId ∧
      (mkTxRequest rdA 100).fulfilledAt = none :=
  c1_amended_decrement_and_approve dbA rdA 100 stockO10 (by decide) (by decide)
    (by decide)

/-- C2 counterexample: when no StockLine exists for the pair, the code throws
the "No inventory found for {group} at this blood bank" error, which names
only the blood group and carries no available/requested amounts — not the
claimed InsufficientInventory error. -/
theorem c2_counterexample :
    createBloodRequestWithInventoryUpdate dbB0 rdA 100 .noFault
      = (.error (.noInventoryFound .O_POSITIVE), dbB0) := by
  decide

/-- C2 (amended): when a StockLine exists with quantity below quantityNeeded
the transaction fails with InsufficientInventory carrying the available and
requested amounts and leaves the state unchanged; when no StockLine exists it
fails with the distinct NoInventoryFound error (naming the blood group, no
amounts) and likewise leaves the state unchanged. -/
theorem c2_amended_insufficient (db : DB) (rd : RequestInput) (freshId : Nat)
    (fault : TxFault) :
    (∀ inv, findInventory db rd.bloodBankId rd.bloodGroup = some inv →
      inv.quantity < rd.quantityNeeded →
      createBloodRequestWithInventoryUpdate db rd freshId fault
        = (.error (.insufficientInventory inv.quantity rd.quantityNeeded), db)) ∧
    (findInventory db rd.bloodBankId rd.bloodGroup = none →
      createBloodRequestWithInventoryUpdate db rd freshId fault
        = (.error (.noInventoryFound rd.bloodGroup), db)) := by
  constructor
  · intro inv hfind hlt
    unfold createBloodRequestWithInventoryUpdate runTransaction createRequestTxBody
    simp only [hfind]
    rw [if_pos hlt]
  · intro hnone
    unfold createBloodRequestWithInventoryUpdate runTransaction createRequestTxBody
    simp only [hnone]

/-- C2 witness: Scenario B — stock 2, request for 4 fails with
InsufficientInventory{available 2, requested 4} and the quantity remains 2. -/
theorem c2_witness :
    createBloodRequestWithInventoryUpdate dbB rdA 100 .noFault
      = (.error (.insufficientInventory stockO2.quantity rdA.quantityNeeded), dbB) ∧
    (findInventory dbB 1 .O_POSITIVE).map BloodInventory.quantity = some 2 :=
  ⟨(c2_amended_insufficient dbB rdA 100 .noFault).1 stockO2 (by decide) (by decide),
   by decide⟩

/-- C3: the transactional path is atomic — whenever the call reports an error
(insufficient inventory, missing line, or an injected infrastructure fault at
any point between the writes), the observable database state equals the prior
state: no partial decrement and no created request is visible. -/
theorem c3_transaction_rollback (db : DB) (rd : RequestInput) (freshId : Nat)
    (fault : TxFault) (e : TxError)
    (h : (createBloodRequestWithInventoryUpdate db rd freshId fault).1 = .error e) :
    (createBloodRequestWithInventoryUpdate db rd freshId fault).2 = db := by
  unfold createBloodRequestWithInventoryUpdate runTransaction at h ⊢
  cases hb : createRequestTxBody rd freshId fault db with
  | ok db2 =>
    rw [hb] at h
    exact Except.noConfusion h
  | error e2 => rfl

/-- C3 witness: a fault injected after the inventory decrement but before the
commit errors out, and the decrement is not observable afterwards. -/
theorem c3_witness :
    (createBloodRequestWithInventoryUpdate dbA rdA 100 .afterDecrement).2 = dbA ∧
    (createBloodRequestWithInventoryUpdate dbA rdA 100 .afterDecrement).1
      = .error .infrastructureFault :=
  ⟨c3_transaction_rollback dbA rdA 100 .afterDecrement .infrastructureFault
    (by decide), by decide⟩

/-- C4 counterexample: a FULFILLED (terminal) request is moved back to PENDING
by the PUT handler — the update succeeds and rewrites the record instead of
failing with InvalidStateTransition — and completeDonation moves a CANCELLED
(terminal) donation to COMPLETED. -/
theorem c4_counterexample :
    (findRequest dbC4 5).map BloodRequest.status = some .FULFILLED ∧
    (putBloodRequestStatus dbC4 5 "PENDING").toOption.map
        (fun db2 => (findRequest db2 5).map BloodRequest.status)
      = some (some .PENDING) ∧
    (completeDonation dbC4 9 hcFail 99 100).toOption.map
        (fun db2 => (findDonation db2 9).map Donation.status)
      = some (some .COMPLETED) := by
  decide

/-- C4 (amended): the code enforces no lifecycle table.  The PUT handler's only
status validation is membership in the five enum values: an unparseable status
fails with VALIDATION_ERROR, while any enumerated status is written regardless
of the current state; no InvalidStateTransition error exists anywhere. -/
theorem c4_amended_enum_only_validation (db : DB) (rid : Nat) (s : String) :
    (parseRequestStatus s = none →
      putBloodRequestStatus db rid s = .error .validationError) ∧
    (∀ st req, parseRequestStatus s = some st → findRequest db rid = some req →
      ∃ db2, putBloodRequestStatus db rid s = .ok db2 ∧
        (findRequest db2 rid).map BloodRequest.status = some st) := by
  constructor
  · intro h
    unfold putBloodRequestStatus
    rw [h]
  · intro st req hp hr
    unfold putBloodRequestStatus
    rw [hp, hr]
    refine ⟨_, rfl, ?_⟩
    rw [findRequest_map_status db rid _
      (fun r => by by_cases hid : r.id = rid <;> simp [hid]), hr]
    have hid : req.id = rid := by simpa using List.find?_some hr
    simp [hid]

/-- C4 witness: an unparseable status is rejected, and the enumerated status
CANCELLED is written onto a FULFILLED (terminal) record. -/
theorem c4_witness :
    putBloodRequestStatus dbC4 5 "BOGUS" = .error .validationError ∧
    (∃ db2, putBloodRequestStatus dbC4 5 "CANCELLED" = .ok db2 ∧
      (findRequest db2 5).map BloodRequest.status = some .CANCELLED) :=
  ⟨(c4_amended_enum_only_validation dbC4 5 "BOGUS").1 (by decide),
   (c4_amended_enum_only_validation dbC4 5 "CANCELLED").2 .CANCELLED reqFulfilled
     (by decide) (by decide)⟩

/-- C5 counterexample: completing a SCHEDULED donation of 2 units with an
eligible result increments the StockLine by the constant 1 — from 5 to 6 —
not by the donated amount 2 (which would give 7). -/
theorem c5_counterexample :
    donC5.quantity = 2 ∧
    (completeDonation dbC5 7 hcPass 99 1000).toOption.map
        (fun db2 => (findInventory db2 1 .A_POSITIVE).map BloodInventory.quantity)
      = some (some 6) := by
  decide

/-- C5 (amended): an eligible completion touches exactly the StockLine for the
donation's (facility, blood group): that line is incremented by exactly 1 unit
— regardless of the donation's quantity field — or created with quantity 1
when absent, every other (facility, blood group) StockLine reads exactly as
before, and the donor's lastDonation is set to the completion time; all
effects occur in the one successful transaction. -/
theorem c5_amended_increment_one (db : DB) (donationId : Nat)
    (hc : HealthCheckInput) (freshInvId : Nat) (now : Int) (d : Donation) (u : User)
    (hd : findDonation db donationId = some d)
    (hel : hc.isEligible = true)
    (hu : findUser db d.donorId = some u) :
    ∃ db2, completeDonation db donationId hc freshInvId now = .ok db2 ∧
      ((findInventory db2 d.bloodBankId d.bloodGroup).map BloodInventory.quantity
        = match (findInventory db d.bloodBankId d.bloodGroup).map
            BloodInventory.quantity with
          | some q => some (q + 1)
          | none => some 1) ∧
      (∀ (bankId2 : Nat) (bg2 : BloodGroup),
        ¬(bankId2 = d.bloodBankId ∧ bg2 = d.bloodGroup) →
        findInventory db2 bankId2 bg2 = findInventory db bankId2 bg2) ∧
      lastDonationOf db2 d.donorId = some now := by
  have hred : completeDonation db donationId hc freshInvId now
      = .ok (updateDonorLastDonation
          (upsertInventoryIncrementOne
            (completeDonationRecordUpdate db donationId hc now)
            d.bloodBankId d.bloodGroup freshInvId now)
          d.donorId now) := by
    unfold completeDonation
    rw [hd]
    show (if hc.isEligible = true then _ else _) = _
    rw [if_pos hel]
  refine ⟨_, hred, ?_, ?_, ?_⟩
  · rw [show findInventory (updateDonorLastDonation
        (upsertInventoryIncrementOne
          (completeDonationRecordUpdate db donationId hc now)
          d.bloodBankId d.bloodGroup freshInvId now)
        d.donorId now) d.bloodBankId d.bloodGroup
      = findInventory (upsertInventoryIncrementOne
          (completeDonationRecordUpdate db donationId hc now)
          d.bloodBankId d.bloodGroup freshInvId now) d.bloodBankId d.bloodGroup
      from rfl, findInventory_upsert,
      show findInventory (completeDonationRecordUpdate db donationId hc now)
        d.bloodBankId d.bloodGroup
      = findInventory db d.bloodBankId d.bloodGroup from rfl]
    cases hfi : findInventory db d.bloodBankId d.bloodGroup with
    | some i => simp
    | none => simp [mkStockRow]
  · intro bankId2 bg2 hne
    rw [show findInventory (updateDonorLastDonation
        (upsertInventoryIncrementOne
          (completeDonationRecordUpdate db donationId hc now)
          d.bloodBankId d.bloodGroup freshInvId now)
        d.donorId now) bankId2 bg2
      = findInventory (upsertInventoryIncrementOne
          (completeDonationRecordUpdate db donationId hc now)
          d.bloodBankId d.bloodGroup freshInvId now) bankId2 bg2
      from rfl,
      findInventory_upsert_other (completeDonationRecordUpdate db donationId hc now)
        d.bloodBankId d.bloodGroup freshInvId now bankId2 bg2 hne]
    rfl
  · have husers : (upsertInventoryIncrementOne
        (completeDonationRecordUpdate db donationId hc now)
        d.bloodBankId d.bloodGroup freshInvId now).users = db.users := by
      rw [upsert_users]
      rfl
    rw [lastDonationOf_updateDonor, findUser_congr d.donorId husers, hu]
    have hid : u.id = d.donorId := by simpa using List.find?_some hu
    simp [hid]

/-- C5 witness (Scenario C): no prior StockLine for (X, A+); completing the
1-unit donation creates that line with quantity 1, reads every other
(facility, blood group) line unchanged, and stamps lastDonation with the
completion time. -/
theorem c5_witness :
    ∃ db2, completeDonation dbC 8 hcPass 99 1000 = .ok db2 ∧
      ((findInventory db2 donC.bloodBankId donC.bloodGroup).map
          BloodInventory.quantity
        = match (findInventory dbC donC.bloodBankId donC.bloodGroup).map
            BloodInventory.quantity with
          | some q => some (q + 1)
          | none => some 1) ∧
      (∀ (bankId2 : Nat) (bg2 : BloodGroup),
        ¬(bankId2 = donC.bloodBankId ∧ bg2 = donC.bloodGroup) →
        findInventory db2 bankId2 bg2 = findInventory dbC bankId2 bg2) ∧
      lastDonationOf db2 donC.donorId = some 1000 :=
  c5_amended_increment_one dbC 8 hcPass 99 1000 donC donorD (by decide) (by decide)
    (by decide)

/-- C6 witness: starting from lastDonation = 50, completing a donation at time
100 moves the timestamp forward, never backward. -/
theorem c6_witness :
    ∃ t2, lastDonationOf (applyOps dbW6 opsW6) 4 = some t2 ∧ (50 : Int) ≤ t2 :=
  c6_lastDonation_monotonic dbW6 opsW6 4 50 (by decide) (by decide)

/-- C7 counterexample: completing with eligible = false sets COMPLETED but
leaves rejectionReason untouched (still null) — the handler accepts no
rejection reason and never writes that column, so nothing is recorded. -/
theorem c7_counterexample :
    (completeDonation dbC5 7 hcFail 99 1000).toOption.map
        (fun db2 => ((findDonation db2 7).map Donation.status,
          (findDonation db2 7).map Donation.rejectionReason))
      = some (some .COMPLETED, some none) := by
  decide

/-- Record-level effect of the donation update inside completeDonation. -/
theorem findDonation_recordUpdate (db : DB) (donationId : Nat)
    (hc : HealthCheckInput) (now : Int) (d : Donation)
    (hd : findDonation db donationId = some d) :
    findDonation (completeDonationRecordUpdate db donationId hc now) donationId
      = some { d with
          status := .COMPLETED,
          donationDate := some now,
          hemoglobinLevel := hc.hemoglobinLevel,
          bloodPressure := hc.bloodPressure,
          weight := hc.weight,
          temperature := hc.temperature,
          isEligible := hc.isEligible,
          unitSerialNumber := hc.unitSerialNumber,
          collectedBy := hc.collectedBy,
          expiryDate := some (now + 35 * msPerDay) } := by
  unfold completeDonationRecordUpdate
  rw [findDonation_map db donationId _
    (fun x => by by_cases hid : x.id = donationId <;> simp [hid]), hd]
  have hid : d.id = donationId := by simpa using List.find?_some hd
  simp [hid]

/-- C7 (amended): completing with eligible = false sets the donation to
COMPLETED and records the submitted health-check fields, creates or modifies
no StockLine and leaves every user's lastDonation unchanged — but the
rejectionReason column is not written (it keeps its prior value): the
operation records no rejection reason. -/
theorem c7_amended_no_stock_mutation (db : DB) (donationId : Nat)
    (hc : HealthCheckInput) (freshInvId : Nat) (now : Int) (d : Donation)
    (hd : findDonation db donationId = some d)
    (hel : hc.isEligible = false) :
    ∃ db2, completeDonation db donationId hc freshInvId now = .ok db2 ∧
      db2.inventory = db.inventory ∧ db2.users = db.users ∧
      (findDonation db2 donationId).map Donation.status = some .COMPLETED ∧
      (findDonation db2 donationId).map Donation.rejectionReason
        = some d.rejectionReason := by
  have hred : completeDonation db donationId hc freshInvId now
      = .ok (completeDonationRecordUpdate db donationId hc now) := by
    unfold completeDonation
    rw [hd]
    show (if hc.isEligible = true then _ else _) = _
    rw [if_neg (by rw [hel]; exact Bool.false_ne_true)]
  refine ⟨_, hred, rfl, rfl, ?_, ?_⟩
  · rw [findDonation_recordUpdate db donationId hc now d hd]
    rfl
  · rw [findDonation_recordUpdate db donationId hc now d hd]
    rfl

/-- C7 witness: the ineligible completion at dbC5 leaves stock and donor data
untouched and records COMPLETED with the rejectionReason unchanged. -/
theorem c7_witness :
    ∃ db2, completeDonation dbC5 7 hcFail 99 1000 = .ok db2 ∧
      db2.inventory = dbC5.inventory ∧ db2.users = dbC5.users ∧
      (findDonation db2 7).map Donation.status = some .COMPLETED ∧
      (findDonation db2 7).map Donation.rejectionReason
        = some donC5.rejectionReason :=
  c7_amended_no_stock_mutation dbC5 7 hcFail 99 1000 donC5 (by decide) (by decide)

/-- C8 counterexample: a donor whose last donation lies exactly 90 days in the
past (now - lastDonation = 90 days, satisfying the claimed
now - lastDonation ≥ 90 days) is excluded, because the code filters with the
strict comparison lastDonation < now - 90 days. -/
theorem c8_counterexample :
    donorBoundary.lastDonation = some 0 ∧
    (90 * msPerDay : Int) - 0 = 90 * msPerDay ∧
    donorBoundary ∉ findEligibleDonors dbC8 none none (90 * msPerDay) := by
  decide

/-- C8 (amended): with no blood-group or city filter, a Person is included in
findEligibleDonors exactly when they have role DONOR, are active and verified,
and lastDonation is null or strictly earlier than now - 90 days (so
now - lastDonation > 90 days, strictly; the exact-90-days boundary is
excluded, while 45 days ago stays excluded and 91 days ago or null stays
included); the results are ordered by lastDonation ascending. -/
theorem c8_amended_strict_window (db : DB) (now : Int) (u : User) :
    (u ∈ findEligibleDonors db none none now ↔
      u ∈ db.users ∧ u.role = .DONOR ∧ u.isActive = true ∧ u.isVerified = true ∧
        (u.lastDonation = none ∨
          ∃ t, u.lastDonation = some t ∧ t < now - 90 * msPerDay)) ∧
    (findEligibleDonors db none none now).Pairwise (fun a b =>
      ∀ x y, a.lastDonation = some x → b.lastDonation = some y → x ≤ y) := by
  constructor
  · rw [show findEligibleDonors db none none now
      = sortBy lastDonationAsc (db.users.filter
          (eligibleDonorPred none none (now - 90 * msPerDay))) from rfl,
      mem_sortBy, List.mem_filter, eligibleDonorPred_none_iff]
  · have hs := pairwise_sortBy lastDonationAsc lastDonationAsc_trans
      lastDonationAsc_total
      (db.users.filter (eligibleDonorPred none none (now - 90 * msPerDay)))
    rw [show findEligibleDonors db none none now
      = sortBy lastDonationAsc (db.users.filter
          (eligibleDonorPred none none (now - 90 * msPerDay))) from rfl]
    refine hs.imp ?_
    intro a b hab x y hx hy
    revert hab
    unfold lastDonationAsc
    rw [hx, hy]
    intro hab
    simpa using hab

/-- C9: in every state reachable by the modelled operations from a state
satisfying them, each (facility, blood group) pair has at most one StockLine
and every StockLine quantity is a non-negative integer; and the storage
layer's unique index blood_inventory_bloodBankId_bloodGroup_key makes any
attempt to insert a second row for an existing pair fail. -/
theorem c9_stockline_invariants :
    (∀ (db : DB) (ops : List Op), StockUnique db → StockNonneg db →
      StockUnique (applyOps db ops) ∧ StockNonneg (applyOps db ops)) ∧
    (∀ (db : DB) (row : BloodInventory),
      (findInventory db row.bloodBankId row.bloodGroup).isSome = true →
      insertStockLine db row = .error .uniqueViolation) := by
  constructor
  · intro db ops hu hn
    exact stock_applyOps ops db hu hn
  · intro db row h
    unfold insertStockLine
    cases hf : findInventory db row.bloodBankId row.bloodGroup with
    | none =>
      rw [hf] at h
      simp at h
    | some i => rfl

/-- C9 witness: the invariants survive a seed insert, a transactional request
and a donation completion, and inserting a duplicate (bank X, A+) row fails
with the unique violation. -/
theorem c9_witness :
    (StockUnique (applyOps dbW6 opsW9) ∧ StockNonneg (applyOps dbW6 opsW9)) ∧
    insertStockLine dbW6 rowDup9 = .error .uniqueViolation :=
  ⟨c9_stockline_invariants.1 dbW6 opsW9 (by unfold StockUnique; decide)
      (by unfold StockNonneg; decide),
   c9_stockline_invariants.2 dbW6 rowDup9 (by decide)⟩

/-- C10: getBloodAvailability filters on the related bank's flags — every
StockLine whose BloodBank has isActive = false or isVerified = false is
excluded from the results, whatever its quantity. -/
theorem c10_inactive_or_unverified_excluded (db : DB) (city : Option String)
    (bg : Option BloodGroup) (inv : BloodInventory) (b : BloodBank)
    (hb : findBank db inv.bloodBankId = some b)
    (hflag : b.isActive = false ∨ b.isVerified = false) :
    inv ∉ getBloodAvailability db city bg := by
  intro hmem
  rw [show getBloodAvailability db city bg
    = sortBy quantityDesc (db.inventory.filter (availabilityPred db city bg))
    from rfl, mem_sortBy, List.mem_filter] at hmem
  obtain ⟨hmem2, hpred⟩ := hmem
  unfold availabilityPred at hpred
  rw [hb] at hpred
  rcases hflag with h | h <;> simp [h] at hpred

/-- C10 witness: the inactive bank's 5-unit StockLine is absent from the
availability results despite its positive quantity. -/
theorem c10_witness :
    stockInactive5.quantity = 5 ∧
    stockInactive5 ∉ getBloodAvailability dbC10 none none :=
  ⟨by decide,
   c10_inactive_or_unverified_excluded dbC10 none none stockInactive5 bankInactive
     (by decide) (Or.inl (by decide))⟩

end BloodLink
